import Mathlib

namespace GccRust

/-!
Verification of the MIR-to-GIMPLE lowering engine (`mir2gimple.rs` on top of
the handle layer in `gcc_api.rs`).

Modelling decisions, applied uniformly:

* Backend tree handles (`Tree` in `gcc_api.rs`) are opaque pointers into the
  backend's arena.  We model the nodes the lowering constructs symbolically:
  each constructor of the Lean `Tree` type records exactly the arguments the
  corresponding backend entry point receives.  Handles produced by fresh
  allocation with no distinguishing arguments (`_create_artificial_label`,
  parameter declarations from `add_fn_parm_decls`) are distinguished by their
  allocation index, matching the order the Rust code allocates them in.
* Rust panics (`unimplemented!` and the `try_into().unwrap()` in
  `convert_rvalue`) abort the lowering; we model them with an explicit error
  type in `Except`, one error constructor per distinct panic site.
* `println!`/`eprintln!` debug output has no effect on the lowering and is
  not modelled.
* The backend-mutating flag calls (`set_external`, `set_preserve_p`,
  `set_initial`, `set_result`, `set_saved_tree`, gimplification and
  finalization) act on backend state; the data they transmit is recorded in
  the `FunctionConversion` / `FinalizedFunction` structures.
-/

/-- Signed integer type tags (`syntax::ast::IntTy`). -/
inductive IntTy
  | Isize
  | I8
  | I16
  | I32
  | I64
  deriving DecidableEq

/-- Unsigned integer type tags (`syntax::ast::UintTy`). -/
inductive UintTy
  | Usize
  | U8
  | U16
  | U32
  | U64
  deriving DecidableEq

/-- Source IR types (`rustc::ty::TyKind`), restricted to the variants the
lowering distinguishes.  `convert_type` matches `Tuple` (empty only), `Int`
and `Uint`; every other `TyKind` variant falls into its wildcard arm, so the
remaining constructors here stand for those (`Bool`, `Char`, `Float`, `Str`,
`Never`, `Ref`, `RawPtr`, `Adt`, `FnDef` and the rest behave identically). -/
inductive Ty
  | Bool
  | Char
  | Int (t : IntTy)
  | Uint (t : UintTy)
  | Float
  | Str
  | Never
  | Ref
  | RawPtr
  | Adt
  | FnDef
  | Tuple (substs : List Ty)

/-- Backend integer-type kinds (`gcc_api::IntegerTypeKind`), restricted to
the kinds `convert_type` can produce. -/
inductive IntegerTypeKind
  | Char
  | SignedChar
  | UnsignedChar
  | Short
  | UnsignedShort
  | Int
  | UnsignedInt
  | Long
  | UnsignedLong
  | LongLong
  | UnsignedLongLong
  deriving DecidableEq

/-- Backend global-tree indices (`gcc_api::TreeIndex`), restricted to the
index the lowering uses. -/
inductive TreeIndex
  | VoidType
  deriving DecidableEq

/-- Backend tree codes (`gcc_api::TreeCode`), restricted to the codes the
lowering passes to the generic `_buildN` constructors. -/
inductive TreeCode
  | InitExpr
  | ReturnExpr
  | BindExpr
  deriving DecidableEq

/-- Symbolic model of a backend tree handle (`gcc_api::Tree`).  Each
constructor records the arguments of the backend entry point that produced
the handle; `parmDecl` and `artificialLabel` carry their allocation index
because the backend returns a fresh distinct handle per call. -/
inductive Tree
  | null
  | treeIndex (i : TreeIndex)
  | integerType (k : IntegerTypeKind)
  | functionType (ret : Tree) (args : List Tree)
  | fnDecl (name : String) (fnType : Tree)
  | block (vars subblocks supercontext chain : Tree)
  | resultDecl (type_ : Tree)
  | parmDecl (idx : Nat) (type_ : Tree)
  | artificialLabel (idx : Nat)
  | intConstant (intType : Tree) (value : Int)
  | stmtList (stmts : List Tree)
  | build1 (code : TreeCode) (type_ : Tree) (a0 : Tree)
  | build2 (code : TreeCode) (type_ : Tree) (a0 a1 : Tree)
  | build3 (code : TreeCode) (type_ : Tree) (a0 a1 a2 : Tree)

/-- The distinct panic sites of the lowering (`unimplemented!` calls and the
`try_into().unwrap()` on a constant's raw data). -/
inductive LoweringError
  | unimplementedType
  | unimplementedProjection
  | unimplementedLocal (n : Nat)
  | unimplementedPlaceBase
  | unimplementedConstant
  | unimplementedRvalue
  | unimplementedStatement
  | unimplementedTerminator
  | tryIntoPanic
  deriving DecidableEq

/-- Place projection elements (`rustc::mir::ProjectionElem`); the lowering
only tests whether the projection sequence is empty, never its contents. -/
inductive ProjElem
  | Deref
  | Field (idx : Nat)
  | Index (slot : Nat)
  deriving DecidableEq

/-- Place bases (`rustc::mir::PlaceBase`): a local slot by dense index, or a
static (which `get_place` rejects via its wildcard arm). -/
inductive PlaceBase
  | Local (n : Nat)
  | Static
  deriving DecidableEq

/-- A storage reference (`rustc::mir::Place`): base slot plus projections. -/
structure Place where
  base : PlaceBase
  projection : List ProjElem
  deriving DecidableEq

/-- Scalar constant values (`rustc::mir::interpret::Scalar`): a raw bit
pattern (`data : u128`, modelled as the corresponding natural number) with a
size in bytes, or a pointer (rejected via the wildcard arm). -/
inductive Scalar
  | Raw (data : Nat) (size : Nat)
  | Ptr
  deriving DecidableEq

/-- Evaluated constant values (`rustc::mir::interpret::ConstValue`),
restricted to the variants `convert_rvalue` distinguishes. -/
inductive ConstValue
  | Scalar (s : Scalar)
  | Slice
  | ByRef
  deriving DecidableEq

/-- Constant kinds (`rustc::ty::ConstKind`): an evaluated value, or any of
the unevaluated/symbolic kinds (collapsed into `Other`, all of which hit the
wildcard arm of `convert_rvalue`). -/
inductive ConstKind
  | Value (v : ConstValue)
  | Other
  deriving DecidableEq

/-- A typed constant literal (`rustc::ty::Const`, the `literal` field of
`mir::Constant`). -/
structure Const where
  ty : Ty
  val : ConstKind

/-- Operands (`rustc::mir::Operand`). -/
inductive Operand
  | Copy (place : Place)
  | Move (place : Place)
  | Constant (c : Const)

/-- Rvalues (`rustc::mir::Rvalue`): `Use` of an operand, or any other
value-producing kind (collapsed into `OtherRvalue`, which hits the wildcard
arm of `convert_rvalue`). -/
inductive Rvalue
  | Use (op : Operand)
  | OtherRvalue

/-- Statement kinds (`rustc::mir::StatementKind`), restricted to the
variants `convert_basic_block` distinguishes; `OtherStmt` stands for every
remaining kind (`FakeRead`, `SetDiscriminant`, `Retag`, ...), all of which
hit the wildcard arm. -/
inductive StatementKind
  | StorageLive (slot : Nat)
  | StorageDead (slot : Nat)
  | Nop
  | Assign (place : Place) (rvalue : Rvalue)
  | OtherStmt

/-- Terminator kinds (`rustc::mir::TerminatorKind`): `Return` is the only
supported kind; the others shown are representatives of the wildcard arm. -/
inductive TerminatorKind
  | Return
  | Goto (target : Nat)
  | SwitchInt
  | Call
  | Resume
  | Unreachable
  deriving DecidableEq

/-- A basic block (`rustc::mir::BasicBlockData`): ordered statements plus
exactly one terminator. -/
structure BasicBlockData where
  statements : List StatementKind
  terminator : TerminatorKind

/-- A function body (`rustc::mir::Body`) as the lowering consumes it:
`return_ty` is `body.return_ty()` (the type of local slot 0), `arg_tys` are
the types of the parameter slots `1..=arg_count` in order (what
`body.args_iter()` yields), and `basic_blocks` is the ordered block list. -/
structure Body where
  return_ty : Ty
  arg_tys : List Ty
  basic_blocks : List BasicBlockData

/-- Type Lowering (`convert_type` in `mir2gimple.rs`): map a source scalar
type to a backend primitive type handle, or fail with
`unimplementedType` (the `unimplemented!("type: ...")` panic). -/
def convert_type : Ty → Except LoweringError Tree
  | .Tuple [] => .ok (.treeIndex .VoidType)
  | .Int .Isize => .ok (.integerType .Long)
  | .Int .I8 => .ok (.integerType .SignedChar)
  | .Int .I16 => .ok (.integerType .Short)
  | .Int .I32 => .ok (.integerType .Int)
  | .Int .I64 => .ok (.integerType .LongLong)
  | .Uint .Usize => .ok (.integerType .UnsignedLong)
  | .Uint .U8 => .ok (.integerType .UnsignedChar)
  | .Uint .U16 => .ok (.integerType .UnsignedShort)
  | .Uint .U32 => .ok (.integerType .UnsignedInt)
  | .Uint .U64 => .ok (.integerType .UnsignedLongLong)
  | _ => .error .unimplementedType

/-- Lower a list of types in order, failing at the first unsupported one
(the iterator in `make_function_arg_types`). -/
def convert_types : List Ty → Except LoweringError (List Tree)
  | [] => .ok []
  | t :: rest =>
    match convert_type t with
    | .error e => .error e
    | .ok tt =>
      match convert_types rest with
      | .error e => .error e
      | .ok tts => .ok (tt :: tts)

/-- The per-function lowering state (`struct FunctionConversion`). -/
structure FunctionConversion where
  fn_decl : Tree
  res_decl : Tree
  parm_decls : List Tree
  vars : List Tree
  block_labels : List Tree
  main_gcc_block : Tree
  stmt_list : List Tree

/-- Function Assembly (`FunctionConversion::new`): lower the return and
argument types, build the function declaration, its enclosing block, the
result declaration, one parameter declaration per argument (in order), and
one artificial label per basic block; start with an empty statement list.
Fails exactly when a type is unsupported. -/
def FunctionConversion.new (name : String) (body : Body) : Except LoweringError FunctionConversion :=
  match convert_type body.return_ty with
  | .error e => .error e
  | .ok return_type =>
    match convert_types body.arg_tys with
    | .error e => .error e
    | .ok arg_types =>
      .ok { fn_decl := Tree.fnDecl name (Tree.functionType return_type arg_types)
            res_decl := Tree.resultDecl return_type
            parm_decls := arg_types.enum.map (fun p => Tree.parmDecl p.1 p.2)
            vars := []
            block_labels := (List.range body.basic_blocks.length).map Tree.artificialLabel
            main_gcc_block :=
              Tree.block .null .null (Tree.fnDecl name (Tree.functionType return_type arg_types)) .null
            stmt_list := [] }

/-- Place Resolution (`FunctionConversion::get_place`): reject non-empty
projections; then slot 0 is the result declaration, slots `1..=K` the
parameter declarations in order, larger slots the unimplemented-local
panic, and a non-local base the wildcard panic. -/
def FunctionConversion.get_place (fc : FunctionConversion) (place : Place) : Except LoweringError Tree :=
  match place.projection with
  | _ :: _ => .error .unimplementedProjection
  | [] =>
    match place.base with
    | .Local n =>
      if n = 0 then .ok fc.res_decl
      else if n ≤ fc.parm_decls.length then .ok (fc.parm_decls.getD (n - 1) .null)
      else .error (.unimplementedLocal n)
    | .Static => .error .unimplementedPlaceBase

/-- The `u128 → i64` conversion `(*data).try_into()` applied to a constant's
raw data; `unwrap` turns the out-of-range case into a panic. -/
def try_into_i64 (data : Nat) : Except LoweringError Int :=
  if data < 2 ^ 63 then .ok (Int.ofNat data) else .error .tryIntoPanic

/-- Rvalue Lowering (`FunctionConversion::convert_rvalue`): copy/move of a
place resolve the place; an integer-typed raw scalar constant becomes an
integer-literal node of the lowered type; everything else panics. -/
def FunctionConversion.convert_rvalue (fc : FunctionConversion) (rv : Rvalue) : Except LoweringError Tree :=
  match rv with
  | .Use (.Copy place) => fc.get_place place
  | .Use (.Move place) => fc.get_place place
  | .Use (.Constant c) =>
    match c.val with
    | .Value (.Scalar (.Raw data _)) =>
      match c.ty with
      | .Int _ | .Uint _ =>
        match convert_type c.ty with
        | .error e => .error e
        | .ok int_type =>
          match try_into_i64 data with
          | .error e => .error e
          | .ok v => .ok (.intConstant int_type v)
      | _ => .error .unimplementedConstant
    | _ => .error .unimplementedConstant
  | .OtherRvalue => .error .unimplementedRvalue

/-- The statement loop inside `FunctionConversion::convert_basic_block`:
storage-liveness markers and no-ops emit nothing; an assignment resolves its
destination, lowers its rvalue and appends one `InitExpr` node typed void;
any other statement kind panics. -/
def convertStatements : FunctionConversion → List StatementKind → Except LoweringError FunctionConversion
  | fc, [] => .ok fc
  | fc, stmt :: rest =>
    match stmt with
    | .StorageLive _ => convertStatements fc rest
    | .StorageDead _ => convertStatements fc rest
    | .Nop => convertStatements fc rest
    | .Assign place rvalue =>
      match fc.get_place place with
      | .error e => .error e
      | .ok dest =>
        match fc.convert_rvalue rvalue with
        | .error e => .error e
        | .ok src =>
          convertStatements
            { fc with stmt_list :=
                fc.stmt_list ++ [Tree.build2 .InitExpr (.treeIndex .VoidType) dest src] }
            rest
    | .OtherStmt => .error .unimplementedStatement

/-- Statement/Terminator Emission for one block
(`FunctionConversion::convert_basic_block`): push the block's pre-allocated
label, convert the statements in order, then the terminator — a `Return`
appends one `ReturnExpr` node typed void wrapping the result declaration;
any other terminator kind panics. -/
def FunctionConversion.convert_basic_block
    (fc : FunctionConversion) (block_index : Nat) (block : BasicBlockData) :
    Except LoweringError FunctionConversion :=
  match convertStatements
      { fc with stmt_list := fc.stmt_list ++ [fc.block_labels.getD block_index .null] }
      block.statements with
  | .error e => .error e
  | .ok fc2 =>
    match block.terminator with
    | .Return =>
      .ok { fc2 with stmt_list :=
              fc2.stmt_list ++ [Tree.build1 .ReturnExpr (.treeIndex .VoidType) fc2.res_decl] }
    | _ => .error .unimplementedTerminator

/-- The enumerated block loop in `func_mir_to_gcc`: convert the blocks in
declared order with their dense indices, short-circuiting on the first
panic. -/
def convertBlocks : FunctionConversion → Nat → List BasicBlockData → Except LoweringError FunctionConversion
  | fc, _, [] => .ok fc
  | fc, i, b :: rest =>
    match fc.convert_basic_block i b with
    | .error e => .error e
    | .ok fc2 => convertBlocks fc2 (i + 1) rest

/-- The finalized function handed to the backend (`finalize`): the function
declaration with its saved tree attached, after gimplification and
finalization were requested (the two booleans record those two calls). -/
structure FinalizedFunction where
  fn_decl : Tree
  saved_tree : Tree
  gimplified : Bool
  finalized : Bool

/-- Binding and handoff (`FunctionConversion::finalize`): wrap the statement
list into a `BindExpr` referencing the function's block, attach it, then
gimplify and finalize. -/
def FunctionConversion.finalize (fc : FunctionConversion) : FinalizedFunction :=
  { fn_decl := fc.fn_decl
    saved_tree :=
      Tree.build3 .BindExpr (.treeIndex .VoidType) .null (.stmtList fc.stmt_list) fc.main_gcc_block
    gimplified := true
    finalized := true }

/-- Whole-function lowering (`func_mir_to_gcc`): assemble the conversion
state, convert every basic block in declared order, then finalize. -/
def func_mir_to_gcc (name : String) (func_mir : Body) : Except LoweringError FinalizedFunction :=
  match FunctionConversion.new name func_mir with
  | .error e => .error e
  | .ok fc =>
    match convertBlocks fc 0 func_mir.basic_blocks with
    | .error e => .error e
    | .ok fc2 => .ok fc2.finalize

/-- The MIR body of `identity(x: i32) -> i32`: one block with
`_0 = move-free copy of _1; return;`. -/
def identityBody : Body :=
  { return_ty := .Int .I32
    arg_tys := [.Int .I32]
    basic_blocks :=
      [ { statements := [.Assign ⟨.Local 0, []⟩ (.Use (.Copy ⟨.Local 1, []⟩))]
          terminator := .Return } ] }

/-- The MIR body of `answer() -> i32`: one block with `_0 = const 42i32;
return;` (the raw scalar carries size 4, the byte width of `i32`). -/
def answerBody : Body :=
  { return_ty := .Int .I32
    arg_tys := []
    basic_blocks :=
      [ { statements :=
            [.Assign ⟨.Local 0, []⟩ (.Use (.Constant ⟨.Int .I32, .Value (.Scalar (.Raw 42 4))⟩))]
          terminator := .Return } ] }

/-- The lowering state `FunctionConversion::new` builds for `identityBody`
under the name `identity` (used as a concrete evaluation point). -/
def fcId : FunctionConversion :=
  { fn_decl := .fnDecl "identity" (.functionType (.integerType .Int) [.integerType .Int])
    res_decl := .resultDecl (.integerType .Int)
    parm_decls := [.parmDecl 0 (.integerType .Int)]
    vars := []
    block_labels := [.artificialLabel 0]
    main_gcc_block :=
      .block .null .null (.fnDecl "identity" (.functionType (.integerType .Int) [.integerType .Int])) .null
    stmt_list := [] }

/-- Sanity check: `fcId` is exactly the state `FunctionConversion::new`
builds for `identityBody`. -/
theorem fcId_spec : FunctionConversion.new "identity" identityBody = .ok fcId := rfl

/-- C3: Type Lowering maps exactly the supported source types to backend
primitives — unit to the backend void type, signed integers of width
8/16/32/64 to the backend signed kinds of those widths (signed char, short,
int, long long), the unsigned widths to the matching unsigned kinds,
pointer-width signed to long and pointer-width unsigned to unsigned long —
and every other input type raises the unimplemented-type error. -/
theorem type_lowering_exact :
    convert_type (.Tuple []) = .ok (.treeIndex .VoidType) ∧
    convert_type (.Int .I8) = .ok (.integerType .SignedChar) ∧
    convert_type (.Int .I16) = .ok (.integerType .Short) ∧
    convert_type (.Int .I32) = .ok (.integerType .Int) ∧
    convert_type (.Int .I64) = .ok (.integerType .LongLong) ∧
    convert_type (.Int .Isize) = .ok (.integerType .Long) ∧
    convert_type (.Uint .U8) = .ok (.integerType .UnsignedChar) ∧
    convert_type (.Uint .U16) = .ok (.integerType .UnsignedShort) ∧
    convert_type (.Uint .U32) = .ok (.integerType .UnsignedInt) ∧
    convert_type (.Uint .U64) = .ok (.integerType .UnsignedLongLong) ∧
    convert_type (.Uint .Usize) = .ok (.integerType .UnsignedLong) ∧
    (∀ t substs, convert_type (.Tuple (t :: substs)) = .error .unimplementedType) ∧
    convert_type .Bool = .error .unimplementedType ∧
    convert_type .Char = .error .unimplementedType ∧
    convert_type .Float = .error .unimplementedType ∧
    convert_type .Str = .error .unimplementedType ∧
    convert_type .Never = .error .unimplementedType ∧
    convert_type .Ref = .error .unimplementedType ∧
    convert_type .RawPtr = .error .unimplementedType ∧
    convert_type .Adt = .error .unimplementedType ∧
    convert_type .FnDef = .error .unimplementedType :=
  ⟨rfl, rfl, rfl, rfl, rfl, rfl, rfl, rfl, rfl, rfl, rfl, fun _ _ => rfl,
   rfl, rfl, rfl, rfl, rfl, rfl, rfl, rfl, rfl⟩

/-- C7: lowering the rvalue "use of a copy of p" and the rvalue "use of a
move of p" produce the identical result — both are exactly Place Resolution
of p, with no other node constructed. -/
theorem copy_move_collapse (fc : FunctionConversion) (p : Place) :
    fc.convert_rvalue (.Use (.Copy p)) = fc.get_place p ∧
    fc.convert_rvalue (.Use (.Move p)) = fc.get_place p :=
  ⟨rfl, rfl⟩

/-- C9: lowering a scalar constant operand ignores the raw scalar's size
field entirely: two constant operands that differ only in the size field
lower to the identical result (for integer types, identical integer-literal
nodes). -/
theorem const_size_irrelevant (fc : FunctionConversion) (ty : Ty) (data s1 s2 : Nat) :
    fc.convert_rvalue (.Use (.Constant ⟨ty, .Value (.Scalar (.Raw data s1))⟩)) =
      fc.convert_rvalue (.Use (.Constant ⟨ty, .Value (.Scalar (.Raw data s2))⟩)) := rfl

/-- C2: lowering `identity(x: i32) -> i32` with one block containing
`_0 = copy _1; return;` emits exactly, in order: the block's label, one
`InitExpr` node typed void binding the result declaration to the parameter
declaration, and one `ReturnExpr` node typed void wrapping the result
declaration. -/
theorem identity_lowering :
    func_mir_to_gcc "identity" identityBody =
      .ok { fn_decl := .fnDecl "identity" (.functionType (.integerType .Int) [.integerType .Int])
            saved_tree :=
              .build3 .BindExpr (.treeIndex .VoidType) .null
                (.stmtList
                  [ .artificialLabel 0,
                    .build2 .InitExpr (.treeIndex .VoidType) (.resultDecl (.integerType .Int))
                      (.parmDecl 0 (.integerType .Int)),
                    .build1 .ReturnExpr (.treeIndex .VoidType) (.resultDecl (.integerType .Int)) ])
                (.block .null .null
                  (.fnDecl "identity" (.functionType (.integerType .Int) [.integerType .Int])) .null)
            gimplified := true
            finalized := true } := rfl

/-- C1: for a Place with an empty projection, slot 0 resolves to the result
declaration, slot i with 1 ≤ i ≤ K (K the number of parameter declarations)
to the i-th parameter declaration in order, and every slot index greater
than K raises the unimplemented-local error. -/
theorem place_resolution_slots (fc : FunctionConversion) (i : Nat) :
    fc.get_place ⟨.Local 0, []⟩ = .ok fc.res_decl ∧
    (1 ≤ i → i ≤ fc.parm_decls.length →
      fc.get_place ⟨.Local i, []⟩ = .ok (fc.parm_decls.getD (i - 1) .null)) ∧
    (fc.parm_decls.length < i →
      fc.get_place ⟨.Local i, []⟩ = .error (.unimplementedLocal i)) := by
  refine ⟨rfl, ?_, ?_⟩
  · intro h1 h2
    simp only [FunctionConversion.get_place]
    rw [if_neg (by omega), if_pos h2]
  · intro h
    simp only [FunctionConversion.get_place]
    rw [if_neg (by omega), if_neg (by omega)]

/-- Concrete evaluation point for `place_resolution_slots`: the identity
function has one parameter, so slot 0 is the result declaration, slot 1 the
parameter declaration, and slot 2 the unimplemented-local error. -/
theorem place_resolution_slots_witness :
    fcId.get_place ⟨.Local 0, []⟩ = .ok fcId.res_decl ∧
    fcId.get_place ⟨.Local 1, []⟩ = .ok (fcId.parm_decls.getD 0 .null) ∧
    fcId.get_place ⟨.Local 2, []⟩ = .error (.unimplementedLocal 2) :=
  ⟨(place_resolution_slots fcId 1).1,
   (place_resolution_slots fcId 1).2.1 (by decide) (by decide),
   (place_resolution_slots fcId 2).2.2 (by decide)⟩

/-- C4: a Place with a non-empty projection sequence always raises the
unimplemented-projection error, regardless of its base, and never resolves
to the base slot's declaration. -/
theorem nonempty_projection_rejected (fc : FunctionConversion) (p : Place)
    (h : p.projection ≠ []) :
    fc.get_place p = .error .unimplementedProjection := by
  obtain ⟨base, projection⟩ := p
  cases projection with
  | nil => exact absurd rfl h
  | cons a rest => rfl

/-- Concrete evaluation point for `nonempty_projection_rejected`: a deref
projection on the result slot is rejected. -/
theorem nonempty_projection_rejected_witness :
    fcId.get_place ⟨.Local 0, [.Deref]⟩ = .error .unimplementedProjection :=
  nonempty_projection_rejected fcId ⟨.Local 0, [.Deref]⟩ (by decide)

/-- C5: a constant operand of signed or unsigned integer type with a plain
raw scalar value lowers, whenever the raw data fits a 64-bit signed integer,
to an integer-literal node of the lowered constant type holding exactly the
constant's value (the unwrap's failure branch is unreachable); in
particular `answer() -> i32` with `return = 42; return;` emits an
assignment from an int32 literal of value 42. -/
theorem const_scalar_lowering (fc : FunctionConversion) (ty : Ty) (data size : Nat)
    (hty : (∃ t, ty = .Int t) ∨ (∃ t, ty = .Uint t))
    (hfit : data < 2 ^ 63) :
    (∃ itype, convert_type ty = .ok itype ∧
      fc.convert_rvalue (.Use (.Constant ⟨ty, .Value (.Scalar (.Raw data size))⟩)) =
        .ok (.intConstant itype (Int.ofNat data))) ∧
    func_mir_to_gcc "answer" answerBody =
      .ok { fn_decl := .fnDecl "answer" (.functionType (.integerType .Int) [])
            saved_tree :=
              .build3 .BindExpr (.treeIndex .VoidType) .null
                (.stmtList
                  [ .artificialLabel 0,
                    .build2 .InitExpr (.treeIndex .VoidType) (.resultDecl (.integerType .Int))
                      (.intConstant (.integerType .Int) 42),
                    .build1 .ReturnExpr (.treeIndex .VoidType) (.resultDecl (.integerType .Int)) ])
                (.block .null .null (.fnDecl "answer" (.functionType (.integerType .Int) [])) .null)
            gimplified := true
            finalized := true } := by
  constructor
  · rcases hty with ⟨t, rfl⟩ | ⟨t, rfl⟩ <;> cases t <;>
      exact ⟨_, rfl, by
        simp only [FunctionConversion.convert_rvalue, convert_type, try_into_i64]
        rw [if_pos hfit]⟩
  · rfl

/-- Concrete evaluation point for `const_scalar_lowering`: the i32 constant
42 with scalar size 4 lowers to an int-typed literal of value 42. -/
theorem const_scalar_lowering_witness :
    ∃ itype, convert_type (.Int .I32) = .ok itype ∧
      fcId.convert_rvalue (.Use (.Constant ⟨.Int .I32, .Value (.Scalar (.Raw 42 4))⟩)) =
        .ok (.intConstant itype (Int.ofNat 42)) :=
  (const_scalar_lowering fcId (.Int .I32) 42 4 (.inl ⟨.I32, rfl⟩) (by decide)).1

/-- Helper: the lowering state built by `FunctionConversion::new` always
starts with an empty statement list. -/
theorem new_stmt_list_empty (name : String) (body : Body) (fc : FunctionConversion)
    (h : FunctionConversion.new name body = .ok fc) : fc.stmt_list = [] := by
  cases hr : convert_type body.return_ty with
  | error e =>
    simp only [FunctionConversion.new, hr] at h
    exact Except.noConfusion h
  | ok rt =>
    cases ha : convert_types body.arg_tys with
    | error e =>
      simp only [FunctionConversion.new, hr, ha] at h
      exact Except.noConfusion h
    | ok ats =>
      simp only [FunctionConversion.new, hr, ha, Except.ok.injEq] at h
      subst h
      rfl

/-- C10: a function body with no basic blocks lowers without error — the
declarations are allocated (`new` succeeds), the statement list stays empty
(no label, no return node), and the bound body is handed to gimplification
and finalization. -/
theorem empty_body_lowering (name : String) (rty : Ty) (atys : List Ty)
    (fc : FunctionConversion)
    (hnew : FunctionConversion.new name ⟨rty, atys, []⟩ = .ok fc) :
    func_mir_to_gcc name ⟨rty, atys, []⟩ =
      .ok { fn_decl := fc.fn_decl
            saved_tree :=
              .build3 .BindExpr (.treeIndex .VoidType) .null (.stmtList []) fc.main_gcc_block
            gimplified := true
            finalized := true } := by
  have hempty : fc.stmt_list = [] := new_stmt_list_empty name _ fc hnew
  simp only [func_mir_to_gcc, hnew, convertBlocks, FunctionConversion.finalize, hempty]

/-- The lowering state `FunctionConversion::new` builds for a block-less
unit-returning function named `noop`. -/
def fcE : FunctionConversion :=
  { fn_decl := .fnDecl "noop" (.functionType (.treeIndex .VoidType) [])
    res_decl := .resultDecl (.treeIndex .VoidType)
    parm_decls := []
    vars := []
    block_labels := []
    main_gcc_block :=
      .block .null .null (.fnDecl "noop" (.functionType (.treeIndex .VoidType) [])) .null
    stmt_list := [] }

/-- Concrete evaluation point for `empty_body_lowering`: a block-less
`noop() -> ()` lowers to a finalized function with an empty statement
list. -/
theorem empty_body_lowering_witness :
    func_mir_to_gcc "noop" ⟨.Tuple [], [], []⟩ =
      .ok { fn_decl := fcE.fn_decl
            saved_tree :=
              .build3 .BindExpr (.treeIndex .VoidType) .null (.stmtList []) fcE.main_gcc_block
            gimplified := true
            finalized := true } :=
  empty_body_lowering "noop" (.Tuple []) [] fcE rfl

/-- Helper: the statement loop only appends to the statement list and leaves
every other component of the lowering state unchanged. -/
theorem convertStatements_frame (stmts : List StatementKind) :
    ∀ fc fc' : FunctionConversion, convertStatements fc stmts = .ok fc' →
      (∃ l, fc'.stmt_list = fc.stmt_list ++ l) ∧
      fc'.fn_decl = fc.fn_decl ∧ fc'.res_decl = fc.res_decl ∧
      fc'.parm_decls = fc.parm_decls ∧ fc'.vars = fc.vars ∧
      fc'.block_labels = fc.block_labels ∧ fc'.main_gcc_block = fc.main_gcc_block := by
  induction stmts with
  | nil =>
    intro fc fc' h
    injection h with h
    subst h
    exact ⟨⟨[], by simp⟩, rfl, rfl, rfl, rfl, rfl, rfl⟩
  | cons stmt rest ih =>
    intro fc fc' h
    cases stmt with
    | StorageLive n =>
      simp only [convertStatements] at h
      exact ih fc fc' h
    | StorageDead n =>
      simp only [convertStatements] at h
      exact ih fc fc' h
    | Nop =>
      simp only [convertStatements] at h
      exact ih fc fc' h
    | OtherStmt =>
      simp only [convertStatements] at h
      exact Except.noConfusion h
    | Assign place rv =>
      simp only [convertStatements] at h
      cases hp : fc.get_place place with
      | error e => rw [hp] at h; exact Except.noConfusion h
      | ok dest =>
        rw [hp] at h
        cases hr : fc.convert_rvalue rv with
        | error e => rw [hr] at h; exact Except.noConfusion h
        | ok src =>
          rw [hr] at h
          obtain ⟨⟨l, hl⟩, h1, h2, h3, h4, h5, h6⟩ := ih _ fc' h
          refine ⟨⟨Tree.build2 .InitExpr (.treeIndex .VoidType) dest src :: l, ?_⟩,
            h1, h2, h3, h4, h5, h6⟩
          rw [hl]
          simp

/-- C8: converting a basic block only appends to the flat statement list;
the function declaration, result declaration, parameter declarations,
local-variable set and per-block label table are unchanged, and
storage-liveness markers and explicit no-ops append nothing at all. -/
theorem block_conversion_frame (fc : FunctionConversion) (i : Nat) (b : BasicBlockData)
    (fc' : FunctionConversion) (h : fc.convert_basic_block i b = .ok fc') :
    ((∃ l, fc'.stmt_list = fc.stmt_list ++ l) ∧
      fc'.fn_decl = fc.fn_decl ∧ fc'.res_decl = fc.res_decl ∧
      fc'.parm_decls = fc.parm_decls ∧ fc'.vars = fc.vars ∧
      fc'.block_labels = fc.block_labels ∧ fc'.main_gcc_block = fc.main_gcc_block) ∧
    (∀ (g : FunctionConversion) (rest : List StatementKind) (n : Nat),
      convertStatements g (.StorageLive n :: rest) = convertStatements g rest ∧
      convertStatements g (.StorageDead n :: rest) = convertStatements g rest ∧
      convertStatements g (.Nop :: rest) = convertStatements g rest) := by
  constructor
  · simp only [FunctionConversion.convert_basic_block] at h
    cases hs : convertStatements
        { fc with stmt_list := fc.stmt_list ++ [fc.block_labels.getD i .null] }
        b.statements with
    | error e => rw [hs] at h; exact Except.noConfusion h
    | ok fc2 =>
      rw [hs] at h
      obtain ⟨⟨l, hl⟩, h1, h2, h3, h4, h5, h6⟩ := convertStatements_frame b.statements _ fc2 hs
      cases ht : b.terminator with
      | Return =>
        rw [ht] at h
        injection h with h
        subst h
        refine ⟨⟨fc.block_labels.getD i .null ::
            (l ++ [Tree.build1 .ReturnExpr (.treeIndex .VoidType) fc2.res_decl]), ?_⟩,
          h1, h2, h3, h4, h5, h6⟩
        rw [hl]
        simp
      | Goto t => rw [ht] at h; exact Except.noConfusion h
      | SwitchInt => rw [ht] at h; exact Except.noConfusion h
      | Call => rw [ht] at h; exact Except.noConfusion h
      | Resume => rw [ht] at h; exact Except.noConfusion h
      | Unreachable => rw [ht] at h; exact Except.noConfusion h
  · intro g rest n
    exact ⟨rfl, rfl, rfl⟩

/-- The lowering state after converting the single block of `identityBody`
starting from `fcId`. -/
def fcIdDone : FunctionConversion :=
  { fcId with stmt_list :=
      [ .artificialLabel 0,
        .build2 .InitExpr (.treeIndex .VoidType) (.resultDecl (.integerType .Int))
          (.parmDecl 0 (.integerType .Int)),
        .build1 .ReturnExpr (.treeIndex .VoidType) (.resultDecl (.integerType .Int)) ] }

/-- Concrete evaluation point for `block_conversion_frame`: converting the
identity block starting from `fcId` appends to the statement list. -/
theorem block_conversion_frame_witness :
    ∃ l, fcIdDone.stmt_list = fcId.stmt_list ++ l :=
  (block_conversion_frame fcId 0
      { statements := [.Assign ⟨.Local 0, []⟩ (.Use (.Copy ⟨.Local 1, []⟩))]
        terminator := .Return }
      fcIdDone rfl).1.1

/-- Helper: a block whose statements all lower but whose terminator is not
`Return` makes block conversion fail with the unimplemented-terminator
panic. -/
theorem convert_basic_block_term_error (fc fc1 : FunctionConversion) (i : Nat)
    (b : BasicBlockData)
    (hstmts : convertStatements
        { fc with stmt_list := fc.stmt_list ++ [fc.block_labels.getD i .null] }
        b.statements = .ok fc1)
    (hterm : b.terminator ≠ .Return) :
    fc.convert_basic_block i b = .error .unimplementedTerminator := by
  unfold FunctionConversion.convert_basic_block
  rw [hstmts]
  cases ht : b.terminator with
  | Return => exact absurd ht hterm
  | Goto t => rfl
  | SwitchInt => rfl
  | Call => rfl
  | Resume => rfl
  | Unreachable => rfl

/-- C6: for a two-block body whose first block ends in an unsupported
terminator (and whose statements are within the subset), the whole lowering
fails with the unimplemented-terminator error, and the result is completely
independent of the second block's content — no statement of the second
block is ever emitted, and blocks are never skipped ahead. -/
theorem terminator_error_before_second_block (name : String) (rty : Ty) (atys : List Ty)
    (b1 b2 : BasicBlockData) (fc fc1 : FunctionConversion)
    (hnew : FunctionConversion.new name ⟨rty, atys, [b1, b2]⟩ = .ok fc)
    (hstmts : convertStatements
        { fc with stmt_list := fc.stmt_list ++ [fc.block_labels.getD 0 .null] }
        b1.statements = .ok fc1)
    (hterm : b1.terminator ≠ .Return) :
    func_mir_to_gcc name ⟨rty, atys, [b1, b2]⟩ = .error .unimplementedTerminator ∧
    ∀ b2' : BasicBlockData,
      func_mir_to_gcc name ⟨rty, atys, [b1, b2']⟩ = .error .unimplementedTerminator := by
  have hblk : fc.convert_basic_block 0 b1 = .error .unimplementedTerminator :=
    convert_basic_block_term_error fc fc1 0 b1 hstmts hterm
  constructor
  · simp only [func_mir_to_gcc, hnew, convertBlocks, hblk]
  · intro b2'
    have hnew' : FunctionConversion.new name ⟨rty, atys, [b1, b2']⟩ = .ok fc := hnew
    simp only [func_mir_to_gcc, hnew', convertBlocks, hblk]

/-- The lowering state `FunctionConversion::new` builds for a two-block
unit-returning function named `ft`. -/
def fcTB : FunctionConversion :=
  { fn_decl := .fnDecl "ft" (.functionType (.treeIndex .VoidType) [])
    res_decl := .resultDecl (.treeIndex .VoidType)
    parm_decls := []
    vars := []
    block_labels := [.artificialLabel 0, .artificialLabel 1]
    main_gcc_block :=
      .block .null .null (.fnDecl "ft" (.functionType (.treeIndex .VoidType) [])) .null
    stmt_list := [] }

/-- Concrete evaluation point for `terminator_error_before_second_block`: a
first block falling through via `Goto` makes the whole lowering fail with
the unimplemented-terminator error. -/
theorem terminator_error_before_second_block_witness :
    func_mir_to_gcc "ft" ⟨.Tuple [], [], [⟨[], .Goto 1⟩, ⟨[], .Return⟩]⟩ =
      .error .unimplementedTerminator :=
  (terminator_error_before_second_block "ft" (.Tuple []) [] ⟨[], .Goto 1⟩ ⟨[], .Return⟩
      fcTB { fcTB with stmt_list := [.artificialLabel 0] } rfl rfl (by decide)).1

end GccRust
